import Mathlib

/-!
Shallow embedding of the rtr-validator program (src/main.rs).

The program synchronizes ROA data from an RTR server and validates a target
prefix (optionally with an ASN) against the accumulated set.  We embed:

* the data model (`IpAddr`, `IpNet`, `MaxLenPfx`, `RouteOrigin`) — addresses
  are modelled as a family tag plus a natural-number encoding, since the
  program only ever compares them for equality;
* the `RoaCollector` payload target and its `apply` method (src/main.rs
  lines 52-74), with state passed explicitly and the fallible result as
  `Except`;
* the post-run part of `main` (lines 122-186): classification of the result
  of `timeout(60s, client.run())`, the matching loop, and the verdict.
-/

namespace RtrValidator

/-- Address family tag, used to state the family-separation property. -/
inductive AddrFamily where
  | v4
  | v6
deriving DecidableEq

/-- Model of `std::net::IpAddr`: a family-tagged numeric address.
The program compares addresses only for equality, so the numeric
encoding is kept abstract as a `Nat`. -/
inductive IpAddr where
  | V4 (addr : Nat)
  | V6 (addr : Nat)
deriving DecidableEq

def IpAddr.family : IpAddr → AddrFamily
  | IpAddr.V4 _ => AddrFamily.v4
  | IpAddr.V6 _ => AddrFamily.v6

/-- The numeric encoding of the address, with the family tag erased. -/
def IpAddr.raw : IpAddr → Nat
  | IpAddr.V4 a => a
  | IpAddr.V6 a => a

/-- Model of `ipnet::IpNet`: the target CIDR, a family-tagged
(network address, length) pair, as produced by the prefix parser. -/
inductive IpNet where
  | V4 (addr : Nat) (prefix_len : Nat)
  | V6 (addr : Nat) (prefix_len : Nat)
deriving DecidableEq

def IpNet.family : IpNet → AddrFamily
  | IpNet.V4 _ _ => AddrFamily.v4
  | IpNet.V6 _ _ => AddrFamily.v6

/-- The network address of the target, as a family-tagged `IpAddr`. -/
def IpNet.addrOf : IpNet → IpAddr
  | IpNet.V4 a _ => IpAddr.V4 a
  | IpNet.V6 a _ => IpAddr.V6 a

def IpNet.rawAddr : IpNet → Nat
  | IpNet.V4 a _ => a
  | IpNet.V6 a _ => a

def IpNet.len : IpNet → Nat
  | IpNet.V4 _ l => l
  | IpNet.V6 _ l => l

/-- Model of `rpki::...::MaxLenPrefix` through the accessor surface the
program uses: `roa.prefix.addr()`, `roa.prefix.prefix_len()`,
`roa.prefix.max_len()`. -/
structure MaxLenPfx where
  addr : IpAddr
  prefix_len : Nat
  max_len : Option Nat
deriving DecidableEq

/-- Model of `rpki::rtr::payload::RouteOrigin`.  The field `pfx` embeds the
source field named `prefix` (a `MaxLenPrefix`); `asn` is the `u32` value
obtained by `u32::from(roa.asn)`. -/
structure RouteOrigin where
  pfx : MaxLenPfx
  asn : Nat
deriving DecidableEq

/-- Model of `rpki::rtr::payload::Action`. -/
inductive Action where
  | Announce
  | Withdraw
deriving DecidableEq

/-- Model of `rpki::rtr::payload::Payload`: a route origin or one of the
non-origin payload kinds the program ignores. -/
inductive Payload where
  | Origin (origin : RouteOrigin)
  | RouterKey
  | Aspa
deriving DecidableEq

/-- Model of `rpki::rtr::payload::Timing` (ignored by `apply`). -/
structure Timing where
  refresh : Nat
  retry : Nat
  expire : Nat
deriving DecidableEq

/-- Model of `rpki::rtr::client::PayloadError`.  The program only ever
constructs the `Corrupt` variant (its distinguished stop signal). -/
inductive PayloadError where
  | Corrupt
deriving DecidableEq

/-- The `RoaCollector` state (src/main.rs lines 29-33). -/
structure RoaCollector where
  roas : List RouteOrigin
  update_count : Nat
  last_update_size : Nat
deriving DecidableEq

/-- `RoaCollector::new` (src/main.rs lines 36-42). -/
def RoaCollector.new : RoaCollector :=
  { roas := [], update_count := 0, last_update_size := 0 }

/-- `PayloadTarget::start` (src/main.rs lines 48-50): returns a fresh empty
update batch; the collector state is untouched. -/
def RoaCollector.start (c : RoaCollector) (_reset : Bool) :
    RoaCollector × List (Action × Payload) :=
  (c, [])

/-- The `for (action, payload) in update` loop body of `apply`
(src/main.rs lines 66-72): push the origin exactly when the action is
`Announce` and the payload is `Origin`. -/
def applyLoop : List (Action × Payload) → List RouteOrigin → List RouteOrigin
  | [], roas => roas
  | (Action.Announce, Payload.Origin origin) :: rest, roas =>
      applyLoop rest (roas ++ [origin])
  | _ :: rest, roas => applyLoop rest roas

/-- `PayloadTarget::apply` (src/main.rs lines 52-74), with the mutable
receiver passed and returned explicitly.  Mirrors the source order: bump
`update_count`, record `last_update_size`, then return the `Corrupt` stop
signal when the batch is empty and data was already collected, otherwise
run the announce loop and return success. -/
def RoaCollector.apply (c : RoaCollector) (update : List (Action × Payload))
    (_timing : Timing) : RoaCollector × Except PayloadError Unit :=
  let c := { c with update_count := c.update_count + 1,
                    last_update_size := update.length }
  if update.isEmpty && decide (c.roas.length > 0) then
    (c, Except.error PayloadError.Corrupt)
  else
    ({ c with roas := applyLoop update c.roas }, Except.ok ())

/-- The `matches` expression of the matching loop (src/main.rs lines
151-159): exact equality of address and length within the same family,
`false` across families. -/
def roaMatches (net : IpNet) (roa : RouteOrigin) : Bool :=
  match net, roa.pfx.addr with
  | IpNet.V4 paddr plen, IpAddr.V4 raddr =>
      raddr == paddr && roa.pfx.prefix_len == plen
  | IpNet.V6 paddr plen, IpAddr.V6 raddr =>
      raddr == paddr && roa.pfx.prefix_len == plen
  | _, _ => false

/-- The pair appended to `matching_roas` for a matching entry:
`(u32::from(roa.asn), roa.prefix.max_len().unwrap_or(roa_prefix_len))`
(src/main.rs lines 161-164); `none` when the entry does not match. -/
def roaEntry (net : IpNet) (roa : RouteOrigin) : Option (Nat × Nat) :=
  if roaMatches net roa then
    some (roa.asn, roa.pfx.max_len.getD roa.pfx.prefix_len)
  else
    none

/-- The `matching_roas` vector built by the loop over `collector.roas`
(src/main.rs lines 145-165). -/
def matchingRoas (net : IpNet) (roas : List RouteOrigin) : List (Nat × Nat) :=
  roas.filterMap (roaEntry net)

/-- The verdict printed by src/main.rs lines 167-186. -/
inductive Verdict where
  | notFound
  | found (matching : List (Nat × Nat))
  | valid (asn : Nat) (matching : List (Nat × Nat))
  | invalid (asn : Nat) (matching : List (Nat × Nat)) (authorized : List Nat)
deriving DecidableEq

/-- The Match Engine: src/main.rs lines 145-186 as a pure function of the
accumulated ROA set, the target, and the optional ASN. -/
def evaluate (roas : List RouteOrigin) (net : IpNet) (asnQ : Option Nat) :
    Verdict :=
  let matching := matchingRoas net roas
  if matching.isEmpty then
    Verdict.notFound
  else
    match asnQ with
    | none => Verdict.found matching
    | some checkAsn =>
        if matching.any (fun p => p.1 == checkAsn) then
          Verdict.valid checkAsn matching
        else
          Verdict.invalid checkAsn matching (matching.map (fun p => p.1))

/-- The `std::io::ErrorKind` values relevant to the run-result check; the
program compares the kind only against `Other` (src/main.rs line 128). -/
inductive ErrorKind where
  | Other
  | BrokenPipe
  | UnexpectedEof
  | ConnectionReset
  | InvalidData
  | TimedOut
deriving DecidableEq

/-- The `std::io::Error` surface the program inspects: its kind and the
text of its `to_string()`. -/
structure IoError where
  kind : ErrorKind
  msg : String
deriving DecidableEq

/-- Whether `pat` occurs at the head of `s` (character lists). -/
def charsLead : List Char → List Char → Bool
  | [], _ => true
  | _ :: _, [] => false
  | p :: ps, c :: cs => p == c && charsLead ps cs

/-- Whether `pat` occurs anywhere in `s` (character lists). -/
def charsContain (pat : List Char) : List Char → Bool
  | [] => pat.isEmpty
  | c :: cs => charsLead pat (c :: cs) || charsContain pat cs

/-- Model of Rust `str::contains` for a literal pattern:
substring occurrence at any position. -/
def strContains (s pat : String) : Bool :=
  charsContain pat.toList s.toList

/-- The completion-signal check of src/main.rs line 128:
`e.kind() == std::io::ErrorKind::Other || e.to_string().contains("corrupt")`. -/
def syncComplete (e : IoError) : Bool :=
  e.kind == ErrorKind.Other || strContains e.msg "corrupt"

/-- The result of `timeout(Duration::from_secs(60), client.run()).await`
(src/main.rs lines 116-120): the run loop returned `Ok(())`, the run loop
returned an I/O error, or the 60-second deadline elapsed first. -/
inductive RunResult where
  | ok
  | err (e : IoError)
  | elapsed
deriving DecidableEq

/-- How the remainder of `main` ends: a fatal error propagated out of
`main` (non-zero process exit), or a computed verdict (exit 0). -/
inductive MainOutcome where
  | fatal (msg : String)
  | verdict (v : Verdict)
deriving DecidableEq

def timeoutMsg : String :=
  "RTR session timeout after 60 seconds - server may not be responding to RTR protocol"

def fetchFailMsg : String :=
  "Failed to fetch ROAs from RTR server"

/-- src/main.rs lines 122-186: classify the run result, then either abort
with a fatal error or hand the accumulated ROA set to the Match Engine. -/
def mainAfterRun (r : RunResult) (roas : List RouteOrigin) (net : IpNet)
    (asnQ : Option Nat) : MainOutcome :=
  match r with
  | RunResult.ok => MainOutcome.verdict (evaluate roas net asnQ)
  | RunResult.err e =>
      if syncComplete e then
        MainOutcome.verdict (evaluate roas net asnQ)
      else
        MainOutcome.fatal fetchFailMsg
  | RunResult.elapsed => MainOutcome.fatal timeoutMsg

/-- A run result is usable (the program proceeds to a verdict) when the run
loop succeeded or its error passed the completion-signal check.  The
elapsed deadline is not usable in this program. -/
def runUsable : RunResult → Bool
  | RunResult.ok => true
  | RunResult.err e => syncComplete e
  | RunResult.elapsed => false

/-! Concrete sample values used by witnesses and counterexamples. -/

/-- The target 10.0.0.0/24 (10.0.0.0 encodes as 167772160). -/
def tgt0 : IpNet := IpNet.V4 167772160 24

/-- ROA (AS64500, 10.0.0.0/24, no explicit max length). -/
def roa0 : RouteOrigin :=
  { pfx := { addr := IpAddr.V4 167772160, prefix_len := 24, max_len := none },
    asn := 64500 }

/-- ROA (AS64501, 10.0.0.0/24, max length 24). -/
def roa1 : RouteOrigin :=
  { pfx := { addr := IpAddr.V4 167772160, prefix_len := 24, max_len := some 24 },
    asn := 64501 }

/-- ROA (AS64500, 10.0.0.0/24, max length 24), the spec's ASN-narrowing
example entry. -/
def roaA : RouteOrigin :=
  { pfx := { addr := IpAddr.V4 167772160, prefix_len := 24, max_len := some 24 },
    asn := 64500 }

def tm0 : Timing := { refresh := 3600, retry := 600, expire := 7200 }

/-- A session error of kind `Other` whose text never mentions corruption. -/
def errOther : IoError := { kind := ErrorKind.Other, msg := "unspecified" }

/-- A session error that fails the completion-signal check. -/
def errPipe : IoError := { kind := ErrorKind.BrokenPipe, msg := "peer closed" }

/-- A sample update batch: one announced origin, one withdrawal, one
announced non-origin payload. -/
def batch0 : List (Action × Payload) :=
  [(Action.Announce, Payload.Origin roa0),
   (Action.Withdraw, Payload.Origin roa1),
   (Action.Announce, Payload.RouterKey)]

/-- The filter the announce loop implements, stated pointwise: an update
pair contributes its origin exactly when it is (Announce, route-origin). -/
def announcedOrigin : Action × Payload → Option RouteOrigin
  | (Action.Announce, Payload.Origin origin) => some origin
  | _ => none

/-! Helper lemmas shared by the claim theorems. -/

theorem applyLoop_eq_filterMap (u : List (Action × Payload))
    (acc : List RouteOrigin) :
    applyLoop u acc = acc ++ u.filterMap announcedOrigin := by
  induction u generalizing acc with
  | nil => simp [applyLoop]
  | cons hd tl ih =>
    obtain ⟨a, p⟩ := hd
    cases a <;> cases p <;>
      simp [applyLoop, announcedOrigin, ih, List.append_assoc]

theorem apply_roas_cases (c : RoaCollector) (u : List (Action × Payload))
    (tm : Timing) :
    (RoaCollector.apply c u tm).1.roas =
      (if u.isEmpty && decide (c.roas.length > 0) then c.roas
       else c.roas ++ u.filterMap announcedOrigin) := by
  by_cases h : (u.isEmpty && decide (c.roas.length > 0)) = true <;>
    simp [RoaCollector.apply, h, applyLoop_eq_filterMap]

theorem apply_snd_eq (c : RoaCollector) (u : List (Action × Payload))
    (tm : Timing) :
    (RoaCollector.apply c u tm).2 =
      (if u.isEmpty && decide (c.roas.length > 0) then
        Except.error PayloadError.Corrupt
       else Except.ok ()) := by
  by_cases h : (u.isEmpty && decide (c.roas.length > 0)) = true <;>
    simp [RoaCollector.apply, h]

/-! Claim theorems. -/

/-- C3: a ROA entry matches the target iff the address family, the raw
network address, and the prefix length are all exactly equal to those of
the target; covering super prefixes, sub prefixes, and entries of the
other address family never match. -/
theorem C3_exact_match (net : IpNet) (roa : RouteOrigin) :
    roaMatches net roa = true ↔
      (IpNet.family net = IpAddr.family roa.pfx.addr ∧
       IpNet.rawAddr net = IpAddr.raw roa.pfx.addr ∧
       IpNet.len net = roa.pfx.prefix_len) := by
  obtain ⟨⟨raddr, rlen, rmax⟩, rasn⟩ := roa
  rcases net with ⟨paddr, plen⟩ | ⟨paddr, plen⟩ <;>
    rcases raddr with a | a <;>
      simp [roaMatches, IpNet.family, IpAddr.family, IpNet.rawAddr,
        IpAddr.raw, IpNet.len] <;>
      omega

/-- C4: `apply` returns the distinguished `Corrupt` stop signal iff the
delivered batch is empty and at least one ROA was already collected; in
every other case it returns success. -/
theorem C4_stop_signal (c : RoaCollector) (u : List (Action × Payload))
    (tm : Timing) :
    ((RoaCollector.apply c u tm).2 = Except.error PayloadError.Corrupt ↔
      (u = [] ∧ c.roas ≠ [])) ∧
    (¬(u = [] ∧ c.roas ≠ []) →
      (RoaCollector.apply c u tm).2 = Except.ok ()) := by
  rw [apply_snd_eq]
  by_cases hu : u = [] <;> by_cases hr : c.roas = [] <;>
    simp [hu, hr, List.isEmpty_iff, List.length_pos, Nat.pos_iff_ne_zero,
      List.length_eq_zero]

/-- C4 witness: an empty batch before any ROA was collected returns
success, not the stop signal. -/
theorem C4_stop_signal_witness :
    (RoaCollector.apply RoaCollector.new [] tm0).2 = Except.ok () :=
  (C4_stop_signal RoaCollector.new [] tm0).2 (by simp [RoaCollector.new])

/-- C6: a batch that does not trigger the stop signal appends, in batch
order, exactly the origins of its (Announce, route-origin) pairs;
withdrawals and non-origin payloads contribute nothing. -/
theorem C6_announce_only (c : RoaCollector) (u : List (Action × Payload))
    (tm : Timing) (h : ¬(u = [] ∧ c.roas ≠ [])) :
    (RoaCollector.apply c u tm).1.roas =
      c.roas ++ u.filterMap announcedOrigin := by
  rw [apply_roas_cases]
  by_cases hu : u = []
  · have hr : c.roas = [] := by
      by_contra hne
      exact h ⟨hu, hne⟩
    simp [hu, hr]
  · simp [List.isEmpty_iff, hu]

/-- C6 witness: from a fresh collector, the sample batch of one announced
origin, one withdrawal, and one announced router key appends exactly the
announced origin. -/
theorem C6_announce_only_witness :
    (RoaCollector.apply RoaCollector.new batch0 tm0).1.roas =
      RoaCollector.new.roas ++ batch0.filterMap announcedOrigin :=
  C6_announce_only RoaCollector.new batch0 tm0 (by decide)

/-- C7: a matching ROA entry with no explicit max-length is reported with
its max-length equal to its own prefix length. -/
theorem C7_max_len_default (net : IpNet) (roas : List RouteOrigin)
    (roa : RouteOrigin) (hmem : roa ∈ roas)
    (hmatch : roaMatches net roa = true)
    (hnone : roa.pfx.max_len = none) :
    (roa.asn, roa.pfx.prefix_len) ∈ matchingRoas net roas := by
  unfold matchingRoas
  exact List.mem_filterMap.mpr ⟨roa, hmem, by simp [roaEntry, hmatch, hnone]⟩

/-- C7 witness: the sample ROA with no max-length is reported as
(AS64500, 24) for the exactly matching target 10.0.0.0/24. -/
theorem C7_max_len_default_witness :
    (64500, 24) ∈ matchingRoas tgt0 [roa0] :=
  C7_max_len_default tgt0 [roa0] roa0 (by simp) (by decide) rfl

/-- C8: the ROA set only grows: whatever `apply` returns, the set after
the call extends the set before the call. -/
theorem C8_monotonic (c : RoaCollector) (u : List (Action × Payload))
    (tm : Timing) :
    ∃ rest, (RoaCollector.apply c u tm).1.roas = c.roas ++ rest := by
  rw [apply_roas_cases]
  by_cases h : (u.isEmpty && decide (c.roas.length > 0)) = true
  · exact ⟨[], by simp [h]⟩
  · exact ⟨u.filterMap announcedOrigin, by simp [h]⟩

/-- C9: the Match Engine is deterministic and pure: equal inputs give
equal verdicts. -/
theorem C9_pure (roas₁ roas₂ : List RouteOrigin) (net₁ net₂ : IpNet)
    (a₁ a₂ : Option Nat) (hr : roas₁ = roas₂) (hn : net₁ = net₂)
    (ha : a₁ = a₂) :
    evaluate roas₁ net₁ a₁ = evaluate roas₂ net₂ a₂ := by
  subst hr; subst hn; subst ha; rfl

/-- C9 witness: evaluating the sample query twice gives the same verdict. -/
theorem C9_pure_witness :
    evaluate [roa0] tgt0 (some 64500) = evaluate [roa0] tgt0 (some 64500) :=
  C9_pure [roa0] [roa0] tgt0 tgt0 (some 64500) (some 64500) rfl rfl rfl

/-- C5: with at least one matching entry and an ASN given, the verdict is
VALID iff the ASN appears among the matching origin-AS values; otherwise
it is INVALID and the authorized-AS list of the matching set is reported. -/
theorem C5_asn_narrowing (roas : List RouteOrigin) (net : IpNet) (a : Nat)
    (hne : matchingRoas net roas ≠ []) :
    ((evaluate roas net (some a) =
        Verdict.valid a (matchingRoas net roas)) ↔
      a ∈ (matchingRoas net roas).map (fun p => p.1)) ∧
    (a ∉ (matchingRoas net roas).map (fun p => p.1) →
      evaluate roas net (some a) =
        Verdict.invalid a (matchingRoas net roas)
          ((matchingRoas net roas).map (fun p => p.1))) := by
  have hisE : (matchingRoas net roas).isEmpty = false := by
    simp [List.isEmpty_iff, hne]
  have hmem : ((matchingRoas net roas).any fun p => p.1 == a) = true ↔
      a ∈ (matchingRoas net roas).map (fun p => p.1) := by
    simp [List.any_eq_true, List.mem_map]
  by_cases hm : ((matchingRoas net roas).any fun p => p.1 == a) = true
  · have hev : evaluate roas net (some a) =
        Verdict.valid a (matchingRoas net roas) := by
      simp [evaluate, hisE, hm]
    exact ⟨⟨fun _ => hmem.mp hm, fun _ => hev⟩,
      fun hnot => absurd (hmem.mp hm) hnot⟩
  · have hm' : ((matchingRoas net roas).any fun p => p.1 == a) = false :=
      Bool.eq_false_iff.mpr hm
    have hev : evaluate roas net (some a) =
        Verdict.invalid a (matchingRoas net roas)
          ((matchingRoas net roas).map (fun p => p.1)) := by
      simp [evaluate, hisE, hm']
    refine ⟨⟨fun hveq => ?_, fun hmema => absurd (hmem.mpr hmema) hm⟩,
      fun _ => hev⟩
    rw [hev] at hveq
    exact absurd hveq (by simp)

/-- C5 witness: on the two sample ROAs for 10.0.0.0/24 with origins
AS64500 and AS64501, querying ASN 64500 yields VALID. -/
theorem C5_asn_narrowing_witness :
    evaluate [roaA, roa1] tgt0 (some 64500) =
      Verdict.valid 64500 (matchingRoas tgt0 [roaA, roa1]) :=
  ((C5_asn_narrowing [roaA, roa1] tgt0 64500 (by decide)).1).mpr (by decide)

/-- C10: a run-loop error is treated as a completed sync iff its kind is
`Other` or its text contains the substring "corrupt"; every other error
aborts the run with the fatal fetch-failure error. -/
theorem C10_err_classification (e : IoError) (roas : List RouteOrigin)
    (net : IpNet) (asnQ : Option Nat) :
    ((mainAfterRun (RunResult.err e) roas net asnQ =
        MainOutcome.verdict (evaluate roas net asnQ)) ↔
      (e.kind = ErrorKind.Other ∨ strContains e.msg "corrupt" = true)) ∧
    (¬(e.kind = ErrorKind.Other ∨ strContains e.msg "corrupt" = true) →
      mainAfterRun (RunResult.err e) roas net asnQ =
        MainOutcome.fatal fetchFailMsg) := by
  have hsync : syncComplete e = true ↔
      (e.kind = ErrorKind.Other ∨ strContains e.msg "corrupt" = true) := by
    simp [syncComplete]
  by_cases h : syncComplete e = true
  · have hev : mainAfterRun (RunResult.err e) roas net asnQ =
        MainOutcome.verdict (evaluate roas net asnQ) := by
      simp [mainAfterRun, h]
    exact ⟨⟨fun _ => hsync.mp h, fun _ => hev⟩,
      fun hn => absurd (hsync.mp h) hn⟩
  · have h' : syncComplete e = false := by simpa using h
    have hev : mainAfterRun (RunResult.err e) roas net asnQ =
        MainOutcome.fatal fetchFailMsg := by
      simp [mainAfterRun, h']
    have hnc : ¬(e.kind = ErrorKind.Other ∨
        strContains e.msg "corrupt" = true) := by
      rw [← hsync]; exact h
    refine ⟨⟨fun hveq => ?_, fun hc => absurd hc hnc⟩, fun _ => hev⟩
    rw [hev] at hveq
    exact absurd hveq (by simp)

/-- C10 witness: a broken-pipe error whose text never mentions corruption
is classified as a failed run and aborts fatally. -/
theorem C10_err_classification_witness :
    mainAfterRun (RunResult.err errPipe) [] tgt0 none =
      MainOutcome.fatal fetchFailMsg :=
  (C10_err_classification errPipe [] tgt0 none).2 (by decide)

/-- C1 counterexample: a run that ends in the usable `ok` outcome with
zero accumulated ROAs produces the NOT FOUND verdict (and exit 0), not a
fatal empty-result error: the claimed invariant does not hold. -/
theorem C1_counterexample :
    mainAfterRun RunResult.ok [] tgt0 none =
      MainOutcome.verdict Verdict.notFound := rfl

/-- C1 (amended): after any usable run outcome with zero accumulated
ROAs, the program proceeds to the Match Engine and reports the NOT FOUND
verdict; no empty-result check exists. -/
theorem C1_empty_gives_not_found (r : RunResult) (net : IpNet)
    (asnQ : Option Nat) (h : runUsable r = true) :
    mainAfterRun r [] net asnQ = MainOutcome.verdict Verdict.notFound := by
  have hev : evaluate [] net asnQ = Verdict.notFound := by
    simp [evaluate, matchingRoas]
  cases r with
  | ok => simpa [mainAfterRun] using hev
  | err e =>
      have hs : syncComplete e = true := by simpa [runUsable] using h
      simp [mainAfterRun, hs, hev]
  | elapsed => simp [runUsable] at h

/-- C1 witness: a session error of kind `Other` is usable, and with zero
ROAs the verdict is NOT FOUND. -/
theorem C1_empty_gives_not_found_witness :
    runUsable (RunResult.err errOther) = true ∧
    mainAfterRun (RunResult.err errOther) [] tgt0 (some 64500) =
      MainOutcome.verdict Verdict.notFound :=
  ⟨rfl, C1_empty_gives_not_found (RunResult.err errOther) tgt0 (some 64500)
    rfl⟩

/-- C2 counterexample: when the 60-second session deadline elapses, the
accumulated set (here one ROA) is not handed to the Match Engine: the
program aborts with the fatal timeout error and computes no verdict. -/
theorem C2_counterexample :
    mainAfterRun RunResult.elapsed [roa0] tgt0 (some 64500) =
        MainOutcome.fatal timeoutMsg ∧
    mainAfterRun RunResult.elapsed [roa0] tgt0 (some 64500) ≠
        MainOutcome.verdict (evaluate [roa0] tgt0 (some 64500)) :=
  ⟨rfl, by simp [mainAfterRun]⟩

/-- C2 (amended): the `Completed` outcome and any error passing the
completion-signal check hand the accumulated set to the Match Engine,
but an elapsed deadline aborts with the fatal timeout error. -/
theorem C2_timeout_fatal (roas : List RouteOrigin) (net : IpNet)
    (asnQ : Option Nat) :
    mainAfterRun RunResult.ok roas net asnQ =
        MainOutcome.verdict (evaluate roas net asnQ) ∧
    mainAfterRun RunResult.elapsed roas net asnQ =
        MainOutcome.fatal timeoutMsg ∧
    ∀ e : IoError, syncComplete e = true →
      mainAfterRun (RunResult.err e) roas net asnQ =
        MainOutcome.verdict (evaluate roas net asnQ) := by
  refine ⟨rfl, rfl, fun e he => ?_⟩
  simp [mainAfterRun, he]

/-- C2 witness: a stop-signal error (kind `Other`) hands the one-ROA set
to the Match Engine. -/
theorem C2_timeout_fatal_witness :
    mainAfterRun (RunResult.err errOther) [roa0] tgt0 none =
      MainOutcome.verdict (evaluate [roa0] tgt0 none) :=
  (C2_timeout_fatal [roa0] tgt0 none).2.2 errOther rfl

end RtrValidator
